import Mathlib

/-!
Verification of the two provisioning scripts in this repository:
`scripts/github_repo_clone.py` and `scripts/letsencrypt_wildcard_setup.py`.

Both scripts are sequential orchestrators that shell out to external tools.
We embed their decision logic shallowly: Python strings become `List Char`,
subprocess results become explicit parameters, filesystem effects become
operation traces interpreted over an abstract file-mode map, and each
fallible step is modelled by the boolean it returns in the source.
-/

namespace EkomerceIac

/-! ## Python string primitives

The Python primitives `str.split(sep)`, `in`, `startswith`, `endswith` and `replace`,
re-expressed over `List Char` so that every claim is decidable by evaluation.
-/

/-- Python `s.split(sep)` for a one-character separator: splitting the empty
string gives `[""]`, and `n` separators give `n + 1` fields. -/
def pySplit (sep : Char) : List Char → List (List Char)
  | [] => [[]]
  | c :: rest =>
    match pySplit sep rest with
    | [] => if c = sep then [[], []] else [[c]]
    | p :: ps => if c = sep then [] :: p :: ps else (c :: p) :: ps

/-- Python `s.startswith(pat)`. -/
def listHeadIs (pat l : List Char) : Bool := decide (l.take pat.length = pat)

/-- Python `s.endswith(pat)`. -/
def listTailIs (pat l : List Char) : Bool :=
  decide (l.drop (l.length - pat.length) = pat)

/-- Python `pat in s` (substring containment). -/
def pyIn (pat : List Char) : List Char → Bool
  | [] => pat.isEmpty
  | c :: rest => listHeadIs pat (c :: rest) || pyIn pat rest

/-- Fuel-bounded helper for `pyReplace`; the fuel is the length of the
remaining string, which suffices because each step consumes at least one
character when the pattern is non-empty. -/
def pyReplaceAux (pat repl : List Char) : Nat → List Char → List Char
  | 0, s => s
  | _ + 1, [] => []
  | fuel + 1, c :: rest =>
    if pat ≠ [] ∧ listHeadIs pat (c :: rest) = true then
      repl ++ pyReplaceAux pat repl fuel ((c :: rest).drop pat.length)
    else c :: pyReplaceAux pat repl fuel rest

/-- Python `s.replace(pat, repl)` for a non-empty pattern: replaces all
non-overlapping occurrences left to right. -/
def pyReplace (pat repl s : List Char) : List Char :=
  pyReplaceAux pat repl s.length s

/-! ## `validate_repo_url` (github_repo_clone.py, lines 125-151)

The source checks, in order: the URL is non-empty; it starts with `"git@"`
and contains `":"`; splitting on `":"` yields exactly two parts and the
second contains `"/"`; the second part ends with `".git"`.
-/

def gitAtHead : List Char := "git@".data

def dotGitTail : List Char := ".git".data

def validate_repo_url (url : List Char) : Bool :=
  if url = [] then false
  else if !(listHeadIs gitAtHead url) || !(url.contains ':') then false
  else if (pySplit ':' url).length ≠ 2
      || !(((pySplit ':' url).getD 1 []).contains '/') then false
  else if !(listTailIs dotGitTail ((pySplit ':' url).getD 1 [])) then false
  else true

/-! ## `run_command` (github_repo_clone.py, lines 220-310)

The subprocess call itself is abstracted as a `CmdOutcome`; `run_command`
maps it to either a returned `(returncode, stdout, stderr)` triple or a
raised Python exception, exactly following the source control flow.
-/

/-- Result of the underlying `subprocess` interaction: the process completed
with a return code and output, the `communicate` call raised
`TimeoutExpired`, or some other exception was raised. -/
inductive CmdOutcome
  | completed (rc : Int) (out err : List Char)
  | timedOut
  | excOther (msg : List Char)
deriving DecidableEq

/-- A Python exception escaping `run_command`. -/
inductive PyExc
  | calledProcessError (rc : Int) (out err : List Char)
  | other (msg : List Char)
deriving DecidableEq

/-- The string `f"Timeout after {timeout}s"` from line 304. -/
def timeoutMessage : Option Nat → List Char
  | some t => ("Timeout after " ++ toString t ++ "s").data
  | none => "Timeout after Nones".data

/-- `run_command(command, check=..., timeout=...)`: on a completed process a
non-zero return code raises `CalledProcessError` when `check` is set,
otherwise the triple is returned; `TimeoutExpired` is caught and turned into
`(124, "", f"Timeout after {timeout}s")` unconditionally; any other
exception is re-raised when `check` is set and otherwise becomes
`(1, "", str(e))`. -/
def run_command (check : Bool) (timeout : Option Nat) :
    CmdOutcome → Except PyExc (Int × List Char × List Char)
  | .completed rc out err =>
    if rc ≠ 0 ∧ check = true then .error (.calledProcessError rc out err)
    else .ok (rc, out, err)
  | .timedOut => .ok (124, [], timeoutMessage timeout)
  | .excOther msg =>
    if check then .error (.other msg) else .ok (1, [], msg)

/-! ## `test_github_connection` / `verify_ssh_works`
(github_repo_clone.py, lines 666-711 and 1262-1293)

Both run an ssh command and return `True` exactly when the substring
`"successfully authenticated"` occurs in the captured stderr; every other
stderr content only selects which message is logged before returning
`False`, and an exception also yields `False` (modelled by `none`).
-/

def successAuthMsg : List Char := "successfully authenticated".data

def permissionDeniedMsg : List Char := "Permission denied".data

def hostKeyFailedMsg : List Char := "Host key verification failed".data

def connTimedOutMsg : List Char := "Connection timed out".data

/-- `test_github_connection()`: the branching on `stderr` from lines
693-707.  The `elif` chain on `"Permission denied"`, `"Host key verification
failed"` and `"Connection timed out"` only chooses a log message; every
branch except the first returns `False`. -/
def test_github_connection : Option (Int × List Char × List Char) → Bool
  | none => false
  | some (_rc, _out, err) =>
    if pyIn successAuthMsg err then true
    else if pyIn permissionDeniedMsg err then false
    else if pyIn hostKeyFailedMsg err then false
    else if pyIn connTimedOutMsg err then false
    else false

/-- `verify_ssh_works()` (lines 1262-1293): same success test on stderr. -/
def verify_ssh_works : Option (Int × List Char × List Char) → Bool
  | none => false
  | some (_rc, _out, err) => if pyIn successAuthMsg err then true else false

/-! ## `main` of letsencrypt_wildcard_setup.py (lines 524-584)

`main` first rejects non-root callers, then walks the list of six
`(description, function)` phases in order, breaking at the first phase that
returns `False`.  Each phase function is modelled by the boolean it
returns; `runPhases` additionally records, in order, the descriptions of
the phases that were actually executed.
-/

def phase1Name : String := "Updating system and installing dependencies"

def phase2Name : String := "Configuring Cloudflare credentials"

def phase3Name : String := "Generating wildcard certificate"

def phase4Name : String := "Configuring renewal hook"

def phase5Name : String := "Configuring Nginx as reverse proxy"

def phase6Name : String := "Testing SSL certificate and Nginx configuration"

/-- The `phases` list of lines 542-549, with each phase function replaced by
the boolean outcome it returns. -/
def phaseList (b1 b2 b3 b4 b5 b6 : Bool) : List (String × Bool) :=
  [(phase1Name, b1), (phase2Name, b2), (phase3Name, b3),
   (phase4Name, b4), (phase5Name, b5), (phase6Name, b6)]

/-- The phase loop of lines 552-563: run each phase in order; on the first
failure set `success = False` and `break`.  Returns the final `success`
flag together with the descriptions of the phases that ran. -/
def runPhases : List (String × Bool) → Bool × List String
  | [] => (true, [])
  | (name, ok) :: rest =>
    if ok then
      let r := runPhases rest
      (r.1, name :: r.2)
    else (false, [name])

/-- `main()` of the certificate script: returns `False` without running any
phase when the effective uid is not 0 (lines 534-536), otherwise runs the
phase loop and returns its overall success flag. -/
def letsencrypt_main (euid : Nat) (b1 b2 b3 b4 b5 b6 : Bool) : Bool × List String :=
  if euid ≠ 0 then (false, [])
  else runPhases (phaseList b1 b2 b3 b4 b5 b6)

/-- Modelled from the claim wording (the spec side of C2): the first failed
phase stops the run with overall failure and exactly the phases up to and
including it executed; if all six succeed the run succeeds with all six
executed. -/
def expectedPhaseRun (b1 b2 b3 b4 b5 b6 : Bool) : Bool × List String :=
  if b1 = false then (false, [phase1Name])
  else if b2 = false then (false, [phase1Name, phase2Name])
  else if b3 = false then (false, [phase1Name, phase2Name, phase3Name])
  else if b4 = false then (false, [phase1Name, phase2Name, phase3Name, phase4Name])
  else if b5 = false then
    (false, [phase1Name, phase2Name, phase3Name, phase4Name, phase5Name])
  else if b6 = false then
    (false, [phase1Name, phase2Name, phase3Name, phase4Name, phase5Name, phase6Name])
  else (true, [phase1Name, phase2Name, phase3Name, phase4Name, phase5Name, phase6Name])

/-! ## The fetch retry loop of `_fresh_clone`
(github_repo_clone.py, lines 49-50 and 1161-1179)

`for attempt in range(1, MAX_RETRIES + 1)`: run `git fetch --all`; on
success `break`; on an exception sleep `RETRY_DELAY` seconds if the attempt
was not the last, otherwise re-raise (which makes `_fresh_clone` return
`False`).  `outcomes n` tells whether attempt number `n` succeeds.
-/

def MAX_RETRIES : Nat := 3

def RETRY_DELAY : Nat := 5

/-- The retry loop, with explicit attempt counter and remaining-attempts
fuel.  Returns `(fetch succeeded, attempts made, total seconds slept)`. -/
def fetchRetryLoop (outcomes : Nat → Bool) : Nat → Nat → Bool × Nat × Nat
  | _, 0 => (true, 0, 0)
  | a, 1 => if outcomes a then (true, 1, 0) else (false, 1, 0)
  | a, n + 2 =>
    if outcomes a then (true, 1, 0)
    else
      let r := fetchRetryLoop outcomes (a + 1) (n + 1)
      (r.1, r.2.1 + 1, r.2.2 + RETRY_DELAY)

/-- The fetch step of `_fresh_clone`: attempts numbered from 1, at most
`MAX_RETRIES` of them. -/
def fetchWithRetries (outcomes : Nat → Bool) : Bool × Nat × Nat :=
  fetchRetryLoop outcomes 1 MAX_RETRIES

/-- Outcome table for the three possible attempts. -/
def outsOf (o1 o2 o3 : Bool) : Nat → Bool :=
  fun n => if n = 1 then o1 else if n = 2 then o2 else o3

/-- `_fresh_clone` after the fetch loop: when the last fetch attempt
re-raises, the surrounding `except` returns `False`; otherwise the result
is that of the remaining checkout/verification steps (`restOk`). -/
def fresh_clone_result (outcomes : Nat → Bool) (restOk : Bool) : Bool :=
  if (fetchWithRetries outcomes).1 then restOk else false

/-! ## `generate_certificate` (letsencrypt_wildcard_setup.py, lines 143-187)

Configuration constants from lines 23-27, the certbot command of lines
162-171, and the post-issuance verification of lines 178-187.  Whether a
path exists on disk after certbot ran is abstracted as `pathExists`.
-/

def DOMAIN : List Char := "*.qleber.co".data

def EMAIL : List Char := "luis@qleber.co".data

/-- `BASE_DOMAIN = DOMAIN.replace("*.", "")` (line 26). -/
def BASE_DOMAIN : List Char := pyReplace "*.".data [] DOMAIN

/-- The certbot invocation of lines 162-171. -/
def certbotCommand : List (List Char) :=
  ["certbot".data, "certonly".data, "--dns-cloudflare".data,
   "--dns-cloudflare-credentials=/etc/letsencrypt/cloudflare/credentials.ini".data,
   "--preferred-challenges=dns-01".data,
   "--email=".data ++ EMAIL,
   "--agree-tos".data, "--no-eff-email".data,
   "-n".data,
   "-d".data, BASE_DOMAIN,
   "-d".data, "*.".data ++ BASE_DOMAIN]

def cert_path : List Char :=
  "/etc/letsencrypt/live/".data ++ BASE_DOMAIN ++ "/fullchain.pem".data

def key_path : List Char :=
  "/etc/letsencrypt/live/".data ++ BASE_DOMAIN ++ "/privkey.pem".data

/-- `generate_certificate()`: in testing mode (`SKIP_CERT_GENERATION`)
certbot is skipped and only the file check runs; otherwise certbot runs
(its success abstracted as `certbotOk`) and the function returns `True`
exactly when it succeeded and both live files exist afterwards. -/
def generate_certificate (skipEnv certbotOk : Bool)
    (pathExists : List Char → Bool) : Bool :=
  if skipEnv then
    if pathExists cert_path && pathExists key_path then true else false
  else if !certbotOk then false
  else if pathExists cert_path && pathExists key_path then true else false

/-! ## `clone_repository` (github_repo_clone.py, lines 776-983)

The decision tree of the reconciliation step.  Every subprocess or
filesystem interaction is abstracted as the boolean the source branches on;
the actions of interest (invoking `git pull`, `git reset`, moving the
destination to a backup, calling `_fresh_clone`) are recorded in order.
-/

inductive RepoAction
  | pull
  | reset
  | backupMove
  | fresh
deriving DecidableEq

/-- Abstracted environment for one `clone_repository` run:
* `skipClone` — the `SKIP_CLONE` environment variable is set (line 817);
* `gitDirAtDest` — `dest_dir/.git` exists (line 831);
* `remoteCmdOk` — `git remote -v` exits 0 (lines 851-857);
* `urlInRemoteOut` — `re.search(re.escape(repo_url), stdout)` finds the
  requested URL in the remote listing (lines 863-864);
* `nameInRemoteOut` — `repo_name in stdout` (line 864);
* `backupMoveOk` — `shutil.move` of the mismatched checkout succeeds
  (lines 869-887);
* `branchNonempty` — `git branch --show-current` prints a branch (line 918);
* `checkoutDefaultOk` — checking out the default branch succeeds
  (lines 923-932);
* `pullOk` — `git pull --ff-only` exits 0 (lines 946-953);
* `resetOk` — the fallback `git reset --hard` exits 0 (lines 957-969);
* `freshCloneOk` — the result of `_fresh_clone` when it is invoked. -/
structure CloneEnv where
  skipClone : Bool
  gitDirAtDest : Bool
  remoteCmdOk : Bool
  urlInRemoteOut : Bool
  nameInRemoteOut : Bool
  backupMoveOk : Bool
  branchNonempty : Bool
  checkoutDefaultOk : Bool
  pullOk : Bool
  resetOk : Bool
  freshCloneOk : Bool

/-- `clone_repository(repo_url, dest_dir, force_clone, skip_pull, ...)`.
The health check of lines 835-840 runs but, with `force_clone` false, its
failure only logs a warning and control falls through, so it does not
appear here.  The `git fetch` of lines 898-906 tolerates failure and is
likewise not branched on. -/
def clone_repository (e : CloneEnv) (forceClone skipPull : Bool) :
    Bool × List RepoAction :=
  if e.skipClone then (true, [])
  else if e.gitDirAtDest && !forceClone then
    if !e.remoteCmdOk then (e.freshCloneOk, [.fresh])
    else if !e.urlInRemoteOut && !e.nameInRemoteOut then
      if e.backupMoveOk then (e.freshCloneOk, [.backupMove, .fresh])
      else (false, [.backupMove])
    else if skipPull then (true, [])
    else if !e.branchNonempty && !e.checkoutDefaultOk then (false, [])
    else if e.pullOk then (true, [.pull])
    else if e.resetOk then (true, [.pull, .reset])
    else (e.freshCloneOk, [.pull, .reset, .fresh])
  else (e.freshCloneOk, [.fresh])

/-- `repo_name` extraction of lines 799-801:
take the last colon-separated field, then its last slash-separated
component, with a trailing `.git`
stripped. -/
def repoNameOf (url : List Char) : List Char :=
  if listTailIs dotGitTail ((pySplit '/' ((pySplit ':' url).getLastD [])).getLastD [])
  then ((pySplit '/' ((pySplit ':' url).getLastD [])).getLastD []).take
    (((pySplit '/' ((pySplit ':' url).getLastD [])).getLastD []).length - 4)
  else (pySplit '/' ((pySplit ':' url).getLastD [])).getLastD []

/-- The remote-identity test of lines 863-864: the existing checkout is
treated as matching when the `git remote -v` output contains the requested
URL, or merely the repository name extracted from it. -/
def remoteMatchCheck (url remoteOut : List Char) : Bool :=
  pyIn url remoteOut || pyIn (repoNameOf url) remoteOut

/-- The default repository URL of line 52. -/
def defaultRepoUrl : List Char := "git@github.com:luchox-dev/qleber-platform.git".data

/-- A `git remote -v` listing for the same repository name fetched over
HTTPS from a different owner. -/
def httpsRemoteListing : List Char :=
  "origin https://github.com/fork/qleber-platform.git (fetch)".data

/-! ## `_cleanup_old_backups` (github_repo_clone.py, lines 1027-1069)

A backup directory is a `(path, mtime)` pair.  The source sorts the glob
matches by modification time with `reverse=True` (Python sorts are stable,
modelled by the stable insertion sort from Mathlib) and removes, iterating over
`backup_dirs[max_backups:]`, everything beyond the first `max_backups`
entries; with `max_backups <= 0` it returns immediately.
-/

/-- The descending-mtime order used by `sort(key=lambda x: x[1],
reverse=True)`. -/
def mtimeGE (a b : String × Nat) : Prop := b.2 ≤ a.2

instance : DecidableRel mtimeGE := fun a b => Nat.decLe b.2 a.2

instance : IsTotal (String × Nat) mtimeGE := ⟨fun a b => Nat.le_total b.2 a.2⟩

instance : IsTrans (String × Nat) mtimeGE :=
  ⟨fun _ _ _ h1 h2 => Nat.le_trans h2 h1⟩

/-- The backup list after `backup_dirs.sort(key=lambda x: x[1],
reverse=True)` (line 1056): newest first, ties kept in original order. -/
def sortBackupsDesc (backups : List (String × Nat)) : List (String × Nat) :=
  backups.insertionSort mtimeGE

/-- The backup directories removed by lines 1059-1065, in removal order:
the slice `backup_dirs[max_backups:]` of the descending-sorted list.  With
`max_backups <= 0` the function returns before removing anything
(lines 1035-1037). -/
def cleanup_old_backups_removed (maxBackups : Int)
    (backups : List (String × Nat)) : List (String × Nat) :=
  if maxBackups ≤ 0 then []
  else (sortBackupsDesc backups).drop maxBackups.toNat

/-- The backup directories that survive the cleanup (the complement of the
removed slice inside the sorted list). -/
def cleanup_old_backups_kept (maxBackups : Int)
    (backups : List (String × Nat)) : List (String × Nat) :=
  if maxBackups ≤ 0 then backups
  else (sortBackupsDesc backups).take maxBackups.toNat

/-! ## Credential-file permissions
(github_repo_clone.py, lines 312-348 and 410-532;
letsencrypt_wildcard_setup.py, lines 120-141)

The filesystem operations each function performs on the success path are
recorded as a trace and interpreted over an abstract map from paths to
permission modes.  The concrete paths are distinct, so they are represented
by constructors (`tempKey` keeps the copied key file name).  `mkdir` and
file writes create an entry with an arbitrary default mode `d` (the
process umask) when absent; `chmod` sets the mode.
-/

inductive CredPath
  | sshDir
  | knownHosts
  | tempKeysDir
  | tempKey (name : String)
  | sshConfig
  | sshConfigBackup
  | cloudflareDir
  | cloudflareCreds
deriving DecidableEq

inductive FsOp
  | mkdirIfAbsent (p : CredPath)
  | writeFile (p : CredPath)
  | chmod (p : CredPath) (mode : Nat)
deriving DecidableEq

def FsState := CredPath → Option Nat

def applyOp (d : Nat) (fs : FsState) : FsOp → FsState
  | .mkdirIfAbsent p => fun q => if q = p then some ((fs p).getD d) else fs q
  | .writeFile p => fun q => if q = p then some ((fs p).getD d) else fs q
  | .chmod p m => fun q => if q = p then some m else fs q

def applyOps (d : Nat) : FsState → List FsOp → FsState
  | fs, [] => fs
  | fs, op :: rest => applyOps d (applyOp d fs op) rest

/-- `ensure_ssh_directory()` (lines 312-348): `os.makedirs(ssh_dir)`,
`chmod 0o700`; then, only if `known_hosts` does not exist, create it and
`chmod 0o600`. -/
def ensure_ssh_directory_ops (knownHostsExists : Bool) : List FsOp :=
  [FsOp.mkdirIfAbsent .sshDir, FsOp.chmod .sshDir 0o700]
  ++ (if knownHostsExists then []
      else [FsOp.writeFile .knownHosts, FsOp.chmod .knownHosts 0o600])

/-- The key-copy loop of lines 436-457: each private key is written into
the temporary key directory and immediately `chmod 0o600`. -/
def copyKeysOps : List String → List FsOp
  | [] => []
  | k :: ks =>
    FsOp.writeFile (.tempKey k) :: FsOp.chmod (.tempKey k) 0o600 :: copyKeysOps ks

/-- `setup_ssh_keys(private_keys, ...)` (lines 410-532) on its success
path: `ensure_ssh_directory`, creation of the temporary key directory with
`chmod 0o700`, the key-copy loop, a backup of an existing SSH config
(written and `chmod 0o600`), and — unless the GitHub host is already
configured in an existing config — the config write followed by
`chmod 0o600`. -/
def setup_ssh_keys_ops (keys : List String)
    (knownHostsExists configExists githubConfigured : Bool) : List FsOp :=
  ensure_ssh_directory_ops knownHostsExists
  ++ [FsOp.mkdirIfAbsent .tempKeysDir, FsOp.chmod .tempKeysDir 0o700]
  ++ copyKeysOps keys
  ++ (if configExists then
        [FsOp.writeFile .sshConfigBackup, FsOp.chmod .sshConfigBackup 0o600]
      else [])
  ++ (if configExists && githubConfigured then []
      else [FsOp.writeFile .sshConfig, FsOp.chmod .sshConfig 0o600])

/-- `configure_cloudflare_credentials()` (lines 120-141):
`os.makedirs(credentials_dir)`, write the credentials file, `chmod
0o600`. -/
def configure_cloudflare_credentials_ops : List FsOp :=
  [FsOp.mkdirIfAbsent .cloudflareDir, FsOp.writeFile .cloudflareCreds,
   FsOp.chmod .cloudflareCreds 0o600]

/-- Checks that every file write in a trace is immediately followed by a
`chmod 0o600` of the same path (owner-only permissions directly after
every successful write). -/
def writesSecured : List FsOp → Bool
  | [] => true
  | FsOp.writeFile p :: rest =>
    (match rest with
     | FsOp.chmod q m :: _ => decide (q = p) && decide (m = 0o600)
     | _ => false) && writesSecured rest
  | _ :: rest => writesSecured rest

end EkomerceIac

namespace EkomerceIac

theorem pySplit_ne_nil (sep : Char) (l : List Char) : pySplit sep l ≠ [] := by
  cases l with
  | nil => simp [pySplit]
  | cons c rest =>
    simp only [pySplit]
    split <;> split <;> simp

theorem pySplit_of_not_mem (sep : Char) (l : List Char) (h : sep ∉ l) :
    pySplit sep l = [l] := by
  induction l with
  | nil => rfl
  | cons c rest ih =>
    have hc : ¬(c = sep) := fun e => h (e ▸ List.mem_cons_self c rest)
    have hr : sep ∉ rest := fun e => h (List.mem_cons_of_mem c e)
    simp only [pySplit, ih hr]
    simp [hc]

theorem contains_of_pySplit_len_two (sep : Char) (l : List Char)
    (h : (pySplit sep l).length = 2) : l.contains sep = true := by
  by_contra hcon
  have hmem : sep ∉ l := by
    intro hm
    exact hcon (List.elem_iff.mpr hm)
  rw [pySplit_of_not_mem sep l hmem] at h
  simp at h

/-- C7: `validate_repo_url` accepts a URL if and only if it is non-empty,
starts with `"git@"`, splits on `":"` into exactly two parts, the part after
the colon contains `"/"`, and that part ends with `".git"`.  (The extra
`":" in url` test in the source is implied by the two-part split.)  Invalid
URLs are rejected by `parse_arguments` via `parser.error` before any
external command runs. -/
theorem validate_repo_url_spec (url : List Char) :
    validate_repo_url url = true ↔
      (url ≠ [] ∧ listHeadIs gitAtHead url = true
        ∧ (pySplit ':' url).length = 2
        ∧ ((pySplit ':' url).getD 1 []).contains '/' = true
        ∧ listTailIs dotGitTail ((pySplit ':' url).getD 1 []) = true) := by
  unfold validate_repo_url
  split_ifs with h1 h2 h3 h4
  · exact iff_of_false (by simp) (by simp [h1])
  · refine iff_of_false (by simp) ?_
    rintro ⟨-, hh, hl, -, -⟩
    rw [Bool.or_eq_true] at h2
    rcases h2 with hcase | hcase
    · rw [Bool.not_eq_true'] at hcase
      rw [hh] at hcase
      exact Bool.true_eq_false.mp hcase
    · rw [Bool.not_eq_true'] at hcase
      rw [contains_of_pySplit_len_two ':' url hl] at hcase
      exact Bool.true_eq_false.mp hcase
  · refine iff_of_false (by simp) ?_
    rintro ⟨-, -, hl, hs, -⟩
    rw [Bool.or_eq_true] at h3
    rcases h3 with hcase | hcase
    · rw [decide_eq_true_eq] at hcase
      exact hcase hl
    · rw [Bool.not_eq_true'] at hcase
      rw [hs] at hcase
      exact Bool.true_eq_false.mp hcase
  · refine iff_of_false (by simp) ?_
    rintro ⟨-, -, -, -, ht⟩
    rw [Bool.not_eq_true'] at h4
    rw [ht] at h4
    exact Bool.true_eq_false.mp h4
  · simp only [Bool.or_eq_true, Bool.not_eq_true', not_or] at h2 h3
    refine iff_of_true rfl ⟨h1, ?_, ?_, ?_, ?_⟩
    · simpa using h2.1
    · simpa using h3.1
    · simpa using h3.2
    · simpa using h4

theorem validate_repo_url_example :
    validate_repo_url "git@github.com:luchox-dev/qleber-platform.git".data = true := by
  decide

theorem validate_repo_url_bad_example :
    validate_repo_url "https://github.com/luchox-dev/qleber-platform.git".data = false := by
  decide

/-- C8: the GitHub connection test returns `true` if and only if the stderr
of the ssh test command contains the substring `"successfully
authenticated"`; permission-denied, host-key-verification and timeout
stderr contents (and an exception, modelled by `none`) all yield `false`,
and `verify_ssh_works` branches on the same substring. -/
theorem test_github_connection_spec :
    (∀ (rc : Int) (out err : List Char),
      test_github_connection (some (rc, out, err)) = true ↔ pyIn successAuthMsg err = true)
    ∧ test_github_connection none = false
    ∧ (∀ r, verify_ssh_works r = test_github_connection r)
    ∧ test_github_connection
        (some (255, [], "git@github.com: Permission denied (publickey).".data)) = false
    ∧ test_github_connection
        (some (255, [], "Host key verification failed.".data)) = false
    ∧ test_github_connection
        (some (255, [], "ssh: connect to host github.com port 22: Connection timed out".data)) = false
    ∧ test_github_connection
        (some (1, [], "Hi luchox-dev! You have successfully authenticated, but GitHub does not provide shell access.".data)) = true := by
  refine ⟨?_, rfl, ?_, by decide, by decide, by decide, by decide⟩
  · intro rc out err
    simp only [test_github_connection]
    cases h : pyIn successAuthMsg err <;> simp [h]
  · intro r
    cases r with
    | none => rfl
    | some t =>
      obtain ⟨rc, out, err⟩ := t
      simp only [verify_ssh_works, test_github_connection]
      cases h : pyIn successAuthMsg err <;> simp [h]

/-- C9: `run_command` with a timeout set returns `(124, "", timeout
message)` when the command exceeds the timeout, for every value of `check`
(so a timeout is never observed as an exception, even with `check=True`). -/
theorem run_command_timeout_spec :
    (∀ (check : Bool) (t : Nat),
      run_command check (some t) CmdOutcome.timedOut
        = Except.ok (124, [], timeoutMessage (some t)))
    ∧ run_command true (some 300) CmdOutcome.timedOut
        = Except.ok (124, [], "Timeout after 300s".data) := by
  exact ⟨fun _ _ => rfl, rfl⟩

/-- C2: running as root, the six phases execute exactly in the listed
order; the first failing phase stops execution (no later phase runs, the
run reports failure), and the run reports success if and only if every
phase succeeded.  Equality with `expectedPhaseRun`, the direct transcription
of the claim, for all 64 outcome combinations. -/
theorem letsencrypt_phase_sequencing :
    ∀ b1 b2 b3 b4 b5 b6 : Bool,
      letsencrypt_main 0 b1 b2 b3 b4 b5 b6 = expectedPhaseRun b1 b2 b3 b4 b5 b6
      ∧ ((letsencrypt_main 0 b1 b2 b3 b4 b5 b6).1 = true
          ↔ (b1 && b2 && b3 && b4 && b5 && b6) = true) := by
  decide

/-- C10: if the effective uid is not 0, `main` of the certificate script
returns failure immediately and no phase executes. -/
theorem letsencrypt_main_requires_root (euid : Nat) (b1 b2 b3 b4 b5 b6 : Bool)
    (h : euid ≠ 0) :
    letsencrypt_main euid b1 b2 b3 b4 b5 b6 = (false, []) := by
  simp [letsencrypt_main, h]

/-- Witness for C10 at a concrete non-root uid. -/
theorem letsencrypt_main_requires_root_witness :
    (1000 : Nat) ≠ 0 ∧ letsencrypt_main 1000 true true true true true true = (false, []) :=
  ⟨by decide, letsencrypt_main_requires_root 1000 true true true true true true (by decide)⟩

/-- C4: the fetch is attempted at most `MAX_RETRIES = 3` times; each failed
attempt except the last is followed by a `RETRY_DELAY = 5` second sleep
before the retry; a successful attempt stops further retries immediately;
and when all three attempts fail the fresh clone reports failure. -/
theorem fresh_clone_retry_spec :
    ∀ o1 o2 o3 restOk : Bool,
      (fetchWithRetries (outsOf o1 o2 o3)).2.1 ≤ MAX_RETRIES
      ∧ (o1 = true → fetchWithRetries (outsOf o1 o2 o3) = (true, 1, 0))
      ∧ (o1 = false → o2 = true →
          fetchWithRetries (outsOf o1 o2 o3) = (true, 2, RETRY_DELAY))
      ∧ (o1 = false → o2 = false → o3 = true →
          fetchWithRetries (outsOf o1 o2 o3) = (true, 3, 2 * RETRY_DELAY))
      ∧ (o1 = false → o2 = false → o3 = false →
          fetchWithRetries (outsOf o1 o2 o3) = (false, 3, 2 * RETRY_DELAY)
          ∧ fresh_clone_result (outsOf o1 o2 o3) restOk = false) := by
  intro o1 o2 o3 restOk
  cases o1 <;> cases o2 <;> cases o3 <;> cases restOk <;>
    exact ⟨by decide, by decide, by decide, by decide, by decide⟩

/-- Witness for C4: with all three attempts failing, three attempts are
made, ten seconds are slept in total, and the fresh clone fails. -/
theorem fresh_clone_retry_spec_witness :
    fetchWithRetries (outsOf false false false) = (false, 3, 2 * RETRY_DELAY)
    ∧ fresh_clone_result (outsOf false false false) true = false :=
  (fresh_clone_retry_spec false false false true).2.2.2.2 rfl rfl rfl

/-- C5: outside testing mode, a successful `generate_certificate` implies
certbot succeeded and both live files exist afterwards; and the certbot
command is non-interactive (`-n`), uses the DNS-01 preferred challenge and
the Cloudflare credentials file, and requests both the base domain
`qleber.co` and the wildcard `*.qleber.co` in the one command. -/
theorem generate_certificate_spec (certbotOk : Bool) (pathExists : List Char → Bool)
    (h : generate_certificate false certbotOk pathExists = true) :
    certbotOk = true
    ∧ pathExists cert_path = true
    ∧ pathExists key_path = true
    ∧ "-n".data ∈ certbotCommand
    ∧ "--preferred-challenges=dns-01".data ∈ certbotCommand
    ∧ "--dns-cloudflare-credentials=/etc/letsencrypt/cloudflare/credentials.ini".data ∈ certbotCommand
    ∧ certbotCommand.getD 9 [] = "-d".data
    ∧ certbotCommand.getD 10 [] = "qleber.co".data
    ∧ certbotCommand.getD 11 [] = "-d".data
    ∧ certbotCommand.getD 12 [] = "*.qleber.co".data
    ∧ cert_path = "/etc/letsencrypt/live/qleber.co/fullchain.pem".data
    ∧ key_path = "/etc/letsencrypt/live/qleber.co/privkey.pem".data := by
  have hok : certbotOk = true := by
    by_contra hc
    rw [Bool.not_eq_true] at hc
    simp [generate_certificate, hc] at h
  subst hok
  simp only [generate_certificate, if_neg (by decide : ¬(false = true)),
    Bool.not_true, Bool.false_eq_true, if_false] at h
  have hpaths : pathExists cert_path = true ∧ pathExists key_path = true := by
    by_cases h1 : pathExists cert_path = true
    · by_cases h2 : pathExists key_path = true
      · exact ⟨h1, h2⟩
      · rw [Bool.not_eq_true] at h2
        simp [h1, h2] at h
    · rw [Bool.not_eq_true] at h1
      simp [h1] at h
  refine ⟨rfl, hpaths.1, hpaths.2, by decide, by decide, by decide,
    by decide, by decide, by decide, by decide, by decide, by decide⟩

/-- Witness for C5 with certbot succeeding and every path present. -/
theorem generate_certificate_spec_witness :
    generate_certificate false true (fun _ => true) = true
    ∧ "-n".data ∈ certbotCommand :=
  ⟨by decide, (generate_certificate_spec true (fun _ => true) (by decide)).2.2.2.1⟩

/-- C1 (amended): with `force_clone` and `skip_pull` false and `SKIP_CLONE`
unset, the repository-fetch step reconciles three ways: an existing git
repository whose `git remote -v` output contains the requested URL *or the
repository name* is updated with `git pull` (so re-running on a converged
destination returns success); an existing repository whose remote listing
contains neither is moved to a backup and freshly cloned; and an absent
repository is freshly cloned. -/
theorem clone_repository_reconciliation :
    ∀ sc gd ro ui ni bo bn co po res fo : Bool,
      (sc = false → gd = true → ro = true → (ui || ni) = true → bn = true → po = true →
        clone_repository ⟨sc, gd, ro, ui, ni, bo, bn, co, po, res, fo⟩ false false
          = (true, [RepoAction.pull]))
      ∧ (sc = false → gd = true → ro = true → ui = false → ni = false → bo = true →
          clone_repository ⟨sc, gd, ro, ui, ni, bo, bn, co, po, res, fo⟩ false false
            = (fo, [RepoAction.backupMove, RepoAction.fresh]))
      ∧ (sc = false → gd = false →
          clone_repository ⟨sc, gd, ro, ui, ni, bo, bn, co, po, res, fo⟩ false false
            = (fo, [RepoAction.fresh])) := by
  refine fun sc gd ro ui ni bo bn co po res fo => ⟨?_, ?_, ?_⟩
  · revert sc gd ro ui ni bo bn co po res fo
    decide
  · revert sc gd ro ui ni bo bn co po res fo
    decide
  · revert sc gd ro ui ni bo bn co po res fo
    decide

/-- Witness for C1: a matching existing repository with a clean pull. -/
theorem clone_repository_reconciliation_witness :
    clone_repository ⟨false, true, true, true, false, true, true, true, true, true, true⟩
        false false
      = (true, [RepoAction.pull]) :=
  (clone_repository_reconciliation false true true true false true true true true true
    true).1 rfl rfl rfl rfl rfl rfl

/-- Counterexample to C1 as stated: the destination holds a checkout whose
remote listing does *not* contain the requested SSH URL (it is an HTTPS
remote of a different owner), yet because the repository name occurs in the
listing the script pulls instead of backing up and re-cloning. -/
theorem clone_repository_url_mismatch_pulls :
    pyIn defaultRepoUrl httpsRemoteListing = false
    ∧ remoteMatchCheck defaultRepoUrl httpsRemoteListing = true
    ∧ clone_repository
        ⟨false, true, true,
         pyIn defaultRepoUrl httpsRemoteListing,
         pyIn (repoNameOf defaultRepoUrl) httpsRemoteListing,
         true, true, true, true, true, true⟩ false false
      = (true, [RepoAction.pull])
    ∧ ((true : Bool), [RepoAction.pull])
        ≠ ((true : Bool), [RepoAction.backupMove, RepoAction.fresh]) := by
  refine ⟨by decide, by decide, by decide, by decide⟩

/-- C3 (amended): with `max_backups <= 0` nothing is cleaned up; otherwise
at most `max_backups` backups are kept, kept and removed backups together
are exactly the original backups, every kept backup is at least as new as
every removed one (only the newest are kept), nothing is removed when there
are at most `max_backups` backups, and the removed backups are processed in
descending modification-time order (newest of the removed first). -/
theorem cleanup_old_backups_spec (maxB : Int) (backups : List (String × Nat)) :
    (maxB ≤ 0 → cleanup_old_backups_removed maxB backups = []
      ∧ cleanup_old_backups_kept maxB backups = backups)
    ∧ (0 < maxB → (cleanup_old_backups_kept maxB backups).length ≤ maxB.toNat)
    ∧ List.Perm
        (cleanup_old_backups_kept maxB backups ++ cleanup_old_backups_removed maxB backups)
        backups
    ∧ (∀ x ∈ cleanup_old_backups_kept maxB backups,
        ∀ y ∈ cleanup_old_backups_removed maxB backups, y.2 ≤ x.2)
    ∧ List.Pairwise mtimeGE (cleanup_old_backups_removed maxB backups)
    ∧ (backups.length ≤ maxB.toNat → cleanup_old_backups_removed maxB backups = []) := by
  by_cases hneg : maxB ≤ 0
  · refine ⟨fun _ => ⟨?_, ?_⟩, fun hpos => absurd hpos (by omega), ?_, ?_, ?_, fun _ => ?_⟩
    · simp [cleanup_old_backups_removed, hneg]
    · simp [cleanup_old_backups_kept, hneg]
    · simp [cleanup_old_backups_removed, cleanup_old_backups_kept, hneg]
    · intro x _ y hy
      simp [cleanup_old_backups_removed, hneg] at hy
    · simp [cleanup_old_backups_removed, hneg]
    · simp [cleanup_old_backups_removed, hneg]
  · have hsortperm : List.Perm (sortBackupsDesc backups) backups :=
      List.perm_insertionSort mtimeGE backups
    have hsorted : List.Pairwise mtimeGE (sortBackupsDesc backups) :=
      List.sorted_insertionSort mtimeGE backups
    have hkept : cleanup_old_backups_kept maxB backups
        = (sortBackupsDesc backups).take maxB.toNat := by
      simp [cleanup_old_backups_kept, hneg]
    have hrem : cleanup_old_backups_removed maxB backups
        = (sortBackupsDesc backups).drop maxB.toNat := by
      simp [cleanup_old_backups_removed, hneg]
    have hsplit : List.Pairwise mtimeGE
        ((sortBackupsDesc backups).take maxB.toNat
          ++ (sortBackupsDesc backups).drop maxB.toNat) := by
      rw [List.take_append_drop]
      exact hsorted
    refine ⟨fun h => absurd h hneg, fun _ => ?_, ?_, ?_, ?_, fun hlen => ?_⟩
    · rw [hkept]
      exact List.length_take_le maxB.toNat (sortBackupsDesc backups)
    · rw [hkept, hrem, List.take_append_drop]
      exact hsortperm
    · intro x hx y hy
      rw [hkept] at hx
      rw [hrem] at hy
      exact (List.pairwise_append.mp hsplit).2.2 x hx y hy
    · rw [hrem]
      exact hsorted.sublist (List.drop_sublist maxB.toNat (sortBackupsDesc backups))
    · rw [hrem]
      refine List.drop_eq_nil_of_le ?_
      rw [hsortperm.length_eq]
      exact hlen

/-- Witness for C3 at a concrete backup list: with three backups and
`max_backups = 1`, at most one backup survives; with `max_backups = -1`
nothing is removed. -/
theorem cleanup_old_backups_spec_witness :
    (cleanup_old_backups_kept 1 [("b1", 1), ("b2", 2), ("b3", 3)]).length ≤ (1 : Int).toNat
    ∧ cleanup_old_backups_removed (-1) [("b1", 1), ("b2", 2), ("b3", 3)] = [] :=
  ⟨(cleanup_old_backups_spec 1 [("b1", 1), ("b2", 2), ("b3", 3)]).2.1 (by decide),
   ((cleanup_old_backups_spec (-1) [("b1", 1), ("b2", 2), ("b3", 3)]).1 (by decide)).1⟩

/-- Counterexample to C3 as stated: with backups `b1 < b2 < b3` by mtime
and `max_backups = 1`, the removal loop visits `b2` (the newer of the two
doomed backups) before `b1`; removal is newest-first among the removed,
not oldest-first. -/
theorem cleanup_old_backups_removal_order_counterexample :
    cleanup_old_backups_removed 1 [("b1", 1), ("b2", 2), ("b3", 3)]
      = [("b2", 2), ("b1", 1)]
    ∧ cleanup_old_backups_removed 1 [("b1", 1), ("b2", 2), ("b3", 3)]
      ≠ [("b1", 1), ("b2", 2)] := by
  refine ⟨by decide, by decide⟩

theorem applyOps_append (d : Nat) (fs : FsState) (a b : List FsOp) :
    applyOps d fs (a ++ b) = applyOps d (applyOps d fs a) b := by
  induction a generalizing fs with
  | nil => rfl
  | cons op rest ih => simp only [List.cons_append, List.append_eq, applyOps, ih]

theorem copyKeysOps_ne (d : Nat) (keys : List String) (fs : FsState) (q : CredPath)
    (h : ∀ k, q ≠ CredPath.tempKey k) :
    applyOps d fs (copyKeysOps keys) q = fs q := by
  induction keys generalizing fs with
  | nil => rfl
  | cons k ks ih =>
    simp only [copyKeysOps, applyOps]
    rw [ih]
    simp [applyOp, h k]

theorem copyKeysOps_not_mem (d : Nat) (keys : List String) (fs : FsState) (k : String)
    (h : k ∉ keys) :
    applyOps d fs (copyKeysOps keys) (CredPath.tempKey k) = fs (CredPath.tempKey k) := by
  induction keys generalizing fs with
  | nil => rfl
  | cons k0 ks ih =>
    have hk0 : ¬(k = k0) := fun e => h (e ▸ List.mem_cons_self k0 ks)
    have hks : k ∉ ks := fun e => h (List.mem_cons_of_mem k0 e)
    simp only [copyKeysOps, applyOps]
    rw [ih _ hks]
    simp [applyOp, hk0]

theorem copyKeysOps_mem (d : Nat) (keys : List String) (fs : FsState) (k : String)
    (h : k ∈ keys) :
    applyOps d fs (copyKeysOps keys) (CredPath.tempKey k) = some 0o600 := by
  induction keys generalizing fs with
  | nil => cases h
  | cons k0 ks ih =>
    simp only [copyKeysOps, applyOps]
    by_cases hk : k ∈ ks
    · exact ih _ hk
    · have hkk : k = k0 := by
        rcases List.mem_cons.mp h with h1 | h2
        · exact h1
        · exact absurd h2 hk
      subst hkk
      rw [copyKeysOps_not_mem d ks _ k hk]
      simp [applyOp]

theorem writesSecured_copyKeysOps (keys : List String) (rest : List FsOp) :
    writesSecured (copyKeysOps keys ++ rest) = writesSecured rest := by
  induction keys with
  | nil => rfl
  | cons k ks ih =>
    simp only [copyKeysOps, List.cons_append, List.append_eq, writesSecured]
    rw [ih]
    simp

theorem ensure_ops_sshDir (d : Nat) (fs : FsState) (kh : Bool) :
    applyOps d fs (ensure_ssh_directory_ops kh) CredPath.sshDir = some 0o700 := by
  cases kh <;> simp [ensure_ssh_directory_ops, applyOps, applyOp]

theorem ensure_ops_knownHosts (d : Nat) (fs : FsState) :
    applyOps d fs (ensure_ssh_directory_ops false) CredPath.knownHosts = some 0o600 := by
  simp [ensure_ssh_directory_ops, applyOps, applyOp]

theorem setup_ops_sshDir (d : Nat) (fs : FsState) (keys : List String) (kh cfg gh : Bool) :
    applyOps d fs (setup_ssh_keys_ops keys kh cfg gh) CredPath.sshDir = some 0o700 := by
  cases kh <;> cases cfg <;> cases gh <;>
    (simp only [setup_ssh_keys_ops, ensure_ssh_directory_ops, applyOps_append]
     simp [applyOps, applyOp]
     rw [copyKeysOps_ne d keys _ _ (fun k => by simp)]
     simp [applyOps, applyOp, ensure_ops_sshDir])

theorem setup_ops_tempKeysDir (d : Nat) (fs : FsState) (keys : List String)
    (kh cfg gh : Bool) :
    applyOps d fs (setup_ssh_keys_ops keys kh cfg gh) CredPath.tempKeysDir
      = some 0o700 := by
  cases kh <;> cases cfg <;> cases gh <;>
    (simp only [setup_ssh_keys_ops, ensure_ssh_directory_ops, applyOps_append]
     simp [applyOps, applyOp]
     rw [copyKeysOps_ne d keys _ _ (fun k => by simp)]
     simp [applyOps, applyOp])

theorem setup_ops_tempKey (d : Nat) (fs : FsState) (keys : List String)
    (kh cfg gh : Bool) (k : String) (hk : k ∈ keys) :
    applyOps d fs (setup_ssh_keys_ops keys kh cfg gh) (CredPath.tempKey k)
      = some 0o600 := by
  cases kh <;> cases cfg <;> cases gh <;>
    (simp only [setup_ssh_keys_ops, ensure_ssh_directory_ops, applyOps_append]
     simp [applyOps, applyOp]
     rw [copyKeysOps_mem d keys _ k hk])

theorem setup_ops_sshConfig (d : Nat) (fs : FsState) (keys : List String)
    (kh cfg gh : Bool) (h : (cfg && gh) = false) :
    applyOps d fs (setup_ssh_keys_ops keys kh cfg gh) CredPath.sshConfig
      = some 0o600 := by
  cases kh <;> cases cfg <;> cases gh <;> first
  | exact absurd h (by decide)
  | (simp only [setup_ssh_keys_ops, ensure_ssh_directory_ops, applyOps_append]
     simp [applyOps, applyOp])

theorem setup_ops_knownHosts (d : Nat) (fs : FsState) (keys : List String)
    (cfg gh : Bool) :
    applyOps d fs (setup_ssh_keys_ops keys false cfg gh) CredPath.knownHosts
      = some 0o600 := by
  cases cfg <;> cases gh <;>
    (simp only [setup_ssh_keys_ops, ensure_ssh_directory_ops, applyOps_append]
     simp [applyOps, applyOp]
     rw [copyKeysOps_ne d keys _ _ (fun k => by simp)]
     simp [applyOps, applyOp])

theorem cloudflare_ops_creds (d : Nat) (fs : FsState) :
    applyOps d fs configure_cloudflare_credentials_ops CredPath.cloudflareCreds
      = some 0o600 := by
  simp [configure_cloudflare_credentials_ops, applyOps, applyOp]

theorem writesSecured_ensure (kh : Bool) :
    writesSecured (ensure_ssh_directory_ops kh) = true := by
  cases kh <;> simp [ensure_ssh_directory_ops, writesSecured]

theorem writesSecured_setup (keys : List String) (kh cfg gh : Bool) :
    writesSecured (setup_ssh_keys_ops keys kh cfg gh) = true := by
  cases kh <;> cases cfg <;> cases gh <;>
    (simp only [setup_ssh_keys_ops, ensure_ssh_directory_ops]
     simp only [List.cons_append, List.nil_append, List.append_assoc, List.append_eq,
       Bool.and_self, Bool.and_false, Bool.and_true, Bool.false_and, Bool.true_and,
       if_true, if_false]
     simp [writesSecured, writesSecured_copyKeysOps])

theorem writesSecured_cloudflare :
    writesSecured configure_cloudflare_credentials_ops = true := by
  simp [configure_cloudflare_credentials_ops, writesSecured]

/-- C6: for any starting filesystem, any default creation mode (umask) and
any key list, after the traced functions finish: the SSH directory and the
temporary key directory carry mode `0o700`; every copied private key, the
SSH config file (whenever it was written, i.e. unless GitHub was already
configured in an existing config), the `known_hosts` file (whenever it was
created) and the Cloudflare credentials file carry owner-only `0o600`; and
in all three traces every file write is immediately followed by a
`chmod 0o600` of the same path, so the invariant holds after every
successful write. -/
theorem credential_file_permissions (d : Nat) (fs : FsState) (keys : List String)
    (kh cfg gh : Bool) :
    applyOps d fs (ensure_ssh_directory_ops kh) CredPath.sshDir = some 0o700
    ∧ (kh = false →
        applyOps d fs (ensure_ssh_directory_ops kh) CredPath.knownHosts = some 0o600)
    ∧ applyOps d fs (setup_ssh_keys_ops keys kh cfg gh) CredPath.sshDir = some 0o700
    ∧ applyOps d fs (setup_ssh_keys_ops keys kh cfg gh) CredPath.tempKeysDir = some 0o700
    ∧ (∀ k ∈ keys,
        applyOps d fs (setup_ssh_keys_ops keys kh cfg gh) (CredPath.tempKey k)
          = some 0o600)
    ∧ ((cfg && gh) = false →
        applyOps d fs (setup_ssh_keys_ops keys kh cfg gh) CredPath.sshConfig
          = some 0o600)
    ∧ (kh = false →
        applyOps d fs (setup_ssh_keys_ops keys kh cfg gh) CredPath.knownHosts
          = some 0o600)
    ∧ applyOps d fs configure_cloudflare_credentials_ops CredPath.cloudflareCreds
        = some 0o600
    ∧ writesSecured (ensure_ssh_directory_ops kh) = true
    ∧ writesSecured (setup_ssh_keys_ops keys kh cfg gh) = true
    ∧ writesSecured configure_cloudflare_credentials_ops = true := by
  refine ⟨ensure_ops_sshDir d fs kh, ?_, setup_ops_sshDir d fs keys kh cfg gh,
    setup_ops_tempKeysDir d fs keys kh cfg gh,
    fun k hk => setup_ops_tempKey d fs keys kh cfg gh k hk,
    setup_ops_sshConfig d fs keys kh cfg gh, ?_,
    cloudflare_ops_creds d fs, writesSecured_ensure kh,
    writesSecured_setup keys kh cfg gh, writesSecured_cloudflare⟩
  · intro h
    subst h
    exact ensure_ops_knownHosts d fs
  · intro h
    subst h
    exact setup_ops_knownHosts d fs keys cfg gh

/-- Witness for C6: empty filesystem, umask default `0o755`, one key file
named `id_rsa`, no pre-existing `known_hosts` or config. -/
theorem credential_file_permissions_witness :
    applyOps 0o755 (fun _ => none) (setup_ssh_keys_ops ["id_rsa"] false false false)
        (CredPath.tempKey "id_rsa") = some 0o600
    ∧ applyOps 0o755 (fun _ => none) (setup_ssh_keys_ops ["id_rsa"] false false false)
        CredPath.sshConfig = some 0o600
    ∧ applyOps 0o755 (fun _ => none) (ensure_ssh_directory_ops false)
        CredPath.knownHosts = some 0o600 :=
  ⟨(credential_file_permissions 0o755 (fun _ => none) ["id_rsa"] false false
      false).2.2.2.2.1 "id_rsa" (by simp),
   (credential_file_permissions 0o755 (fun _ => none) ["id_rsa"] false false
      false).2.2.2.2.2.1 (by decide),
   (credential_file_permissions 0o755 (fun _ => none) ["id_rsa"] false false
      false).2.1 rfl⟩

end EkomerceIac
